import Mathlib

/-!
Verification of the `lucie` streaming response renderer.

Shallow embedding of the Slack streaming module (`src/mastra/slack`):
the stream state, the per-chunk state transition of `streamToSlack`,
the nested-chunk unwrapper `handleNestedChunkEvents`, the status
renderer `getStatusText`, the final-write retry helper
`retrySlackUpdate`, and the request verifier `verifySlackRequest`.
JavaScript strings become `String`, optional fields become `Option`,
JavaScript truthiness of a string (`""` is falsy) is modelled
explicitly, and effectful code is modelled by explicit state passing
and event traces.
-/

namespace Lucie

/-- JavaScript truthiness for an optional string field: the field is
truthy when it is present and not the empty string. -/
def strTruthy : Option String → Bool
  | some s => s ≠ ""
  | none => false

/-- JavaScript `a || b || d` over two optional string fields with a
string default: the first present, non-empty value wins. -/
def jsOrStr (a b : Option String) (d : String) : String :=
  match a with
  | some x => if x ≠ "" then x else
      match b with
      | some y => if y ≠ "" then y else d
      | none => d
  | none =>
      match b with
      | some y => if y ≠ "" then y else d
      | none => d

/-- One pass of the regex replace from `formatName`
(`id.replace(/([a-z])([A-Z])/g, '$1 $2')`): insert a space between a
lowercase letter and the uppercase letter that follows it. -/
def camelSplit : List Char → List Char
  | [] => []
  | [c] => [c]
  | a :: b :: rest =>
      if a.isLower && b.isUpper then a :: ' ' :: camelSplit (b :: rest)
      else a :: camelSplit (b :: rest)

/-- JavaScript `String.prototype.split` with a single-character
separator class: split the character list at every character
satisfying `p`, keeping empty segments (so `"a-"` splits into
`["a", ""]` and `""` splits into `[""]`, as in JavaScript). -/
def splitSep (p : Char → Bool) : List Char → List (List Char)
  | [] => [[]]
  | c :: rest =>
      match splitSep p rest with
      | [] => [[]]
      | g :: gs => if p c then [] :: g :: gs else (c :: g) :: gs

/-- JavaScript `w.charAt(0).toUpperCase() + w.slice(1)`. -/
def capFirst : List Char → List Char
  | [] => []
  | c :: rest => c.toUpper :: rest

/-- `formatName` from `src/mastra/slack/utils.ts`: split camelCase,
split on hyphens and underscores, capitalize each word, join with
spaces. -/
def formatName (id : String) : String :=
  String.intercalate " "
    ((splitSep (fun c => c = '-' || c = '_') (camelSplit id.data)).map
      fun w => String.mk (capFirst w))

/-- `StreamState` from `src/mastra/slack/types.ts`. -/
structure StreamState where
  text : String
  chunkType : String
  toolName : Option String := none
  workflowName : Option String := none
  stepName : Option String := none
  agentName : Option String := none
deriving Repr, DecidableEq

/-- The initial state built by `streamToSlack`:
`{ text: '', chunkType: 'start' }`. -/
def initStreamState : StreamState := { text := "", chunkType := "start" }

/-- The `payload` object of a workflow event wrapped inside a
`tool-output` chunk: `{ id?: string; stepId?: string }`. -/
structure StepPayload where
  id : Option String := none
  stepId : Option String := none
deriving Repr, DecidableEq

/-- The `chunk.payload.output` object of a `tool-output` chunk:
`{ type?: string; payload?: { id?, stepId? } }`. -/
structure ToolOutputObj where
  type : Option String := none
  payload : Option StepPayload := none
deriving Repr, DecidableEq

/-- The inner payload of a nested execution event:
`{ text?: string }` for agent events, `{ id?: string }` for workflow
events. -/
structure InnerPayload where
  text : Option String := none
  id : Option String := none
deriving Repr, DecidableEq

/-- The embedded inner event of a nested chunk: `{ type, payload }`. -/
structure InnerEvent where
  type : String
  payload : Option InnerPayload := none
deriving Repr, DecidableEq

/-- The chunk shapes the streaming code dispatches on.  The two
dynamically suffixed families carry their suffix and an optional
embedded inner event (`none` models an absent or non-object payload);
`other` models any chunk kind the code does not recognize. -/
inductive Chunk where
  | textDelta (text : String)
  | toolCall (toolName : String)
  | toolOutput (output : Option ToolOutputObj)
  | workflowExecutionStart (name : Option String) (workflowId : String)
  | agentEvent (suffix : String) (inner : Option InnerEvent)
  | workflowEvent (suffix : String) (inner : Option InnerEvent)
  | other (kind : String)
deriving Repr, DecidableEq

/-- The `chunk.type` string of each chunk shape. -/
def Chunk.type : Chunk → String
  | .textDelta _ => "text-delta"
  | .toolCall _ => "tool-call"
  | .toolOutput _ => "tool-output"
  | .workflowExecutionStart _ _ => "workflow-execution-start"
  | .agentEvent suffix _ => "agent-execution-event-" ++ suffix
  | .workflowEvent suffix _ => "workflow-execution-event-" ++ suffix
  | .other kind => kind

/-- `handleNestedChunkEvents` from the nested chunk event handler
module: for an `agent-execution-event-*` chunk whose inner event is a
`text-delta` with truthy text, append the text and set the chunk type;
for a `workflow-execution-event-*` chunk whose inner event is a
`workflow-step-start`, set the chunk type and the step name (with a
nullish `?? 'step'` fallback); every other chunk is left unchanged. -/
def handleNestedChunkEvents (chunk : Chunk) (state : StreamState) : StreamState :=
  match chunk with
  | .agentEvent _ inner =>
      match inner with
      | some ev =>
          if ev.type = "text-delta" then
            match ev.payload with
            | some p =>
                match p.text with
                | some t =>
                    if t ≠ "" then
                      { state with text := state.text ++ t, chunkType := "text-delta" }
                    else state
                | none => state
            | none => state
          else state
      | none => state
  | .workflowEvent _ inner =>
      match inner with
      | some ev =>
          if ev.type = "workflow-step-start" then
            { state with
                chunkType := "workflow-step-start",
                stepName := some (formatName ((ev.payload.bind fun p => p.id).getD "step")) }
          else state
      | none => state
  | _ => state

/-- The per-chunk state transition of the `for await` loop in
`streamToSlack` (`src/mastra/slack/streaming.ts` lines 145-196),
with the Slack render calls and pacing sleeps abstracted away:
first `state.chunkType = chunk.type`, then the `switch` on
`chunk.type`. -/
def processChunkSlack (state : StreamState) (chunk : Chunk) : StreamState :=
  let s := { state with chunkType := chunk.type }
  match chunk with
  | .textDelta t => if t ≠ "" then { s with text := s.text ++ t } else s
  | .toolCall toolName => { s with toolName := some (formatName toolName) }
  | .toolOutput output =>
      match output with
      | some o =>
          let s1 :=
            match o.type with
            | some ty => if ty ≠ "" then { s with chunkType := ty } else s
            | none => s
          if o.type = some "workflow-step-start" then
            { s1 with
                stepName := some (formatName
                  (jsOrStr (o.payload.bind fun p => p.id)
                           (o.payload.bind fun p => p.stepId) "step")) }
          else s1
      | none => s
  | .workflowExecutionStart name workflowId =>
      { s with
          workflowName := some (formatName (jsOrStr name none workflowId)),
          stepName := some "Starting" }
  | _ => s

/-- Folding the Slack per-chunk transition over a chunk sequence in
arrival order. -/
def runSlackChunks (state : StreamState) (chunks : List Chunk) : StreamState :=
  chunks.foldl processChunkSlack state

/-- The final text computed by `streamToSlack` at stream end:
`state.text || "Sorry, I couldn't generate a response."` — the
fallback is used exactly when the accumulated text is the empty
string (the only falsy string in JavaScript). -/
def finalSlackText (accumulated : String) : String :=
  if accumulated = "" then "Sorry, I couldn\x27t generate a response." else accumulated

/-- Concatenation of a list of texts in order (the specification-side
right-hand side of the accumulation property). -/
def concatTexts : List String → String
  | [] => ""
  | t :: ts => t ++ concatTexts ts

theorem append_empty_str (s : String) : s ++ "" = s := by
  apply String.ext
  simp [String.data_append]

theorem processChunkSlack_textDelta_text (s : StreamState) (t : String) :
    (processChunkSlack s (Chunk.textDelta t)).text = s.text ++ t := by
  by_cases h : t = ""
  · subst h; simp [processChunkSlack, append_empty_str]
  · simp [processChunkSlack, h]

theorem runSlackChunks_textDeltas (s : StreamState) (texts : List String) :
    (runSlackChunks s (texts.map Chunk.textDelta)).text = s.text ++ concatTexts texts := by
  induction texts generalizing s with
  | nil => simp [runSlackChunks, concatTexts, append_empty_str]
  | cons t ts ih =>
      simp only [List.map_cons, runSlackChunks, List.foldl_cons]
      rw [show List.foldl processChunkSlack (processChunkSlack s (Chunk.textDelta t))
            (ts.map Chunk.textDelta)
          = runSlackChunks (processChunkSlack s (Chunk.textDelta t)) (ts.map Chunk.textDelta)
          from rfl]
      rw [ih, processChunkSlack_textDelta_text, concatTexts, String.append_assoc]

/-- C2: For every ordered finite sequence of top-level text-delta
chunks processed by the stream consumer, the accumulated text after
processing equals the concatenation of the chunks' payload texts in
arrival order. -/
theorem accumulated_text_is_concatenation (texts : List String) :
    (runSlackChunks initStreamState (texts.map Chunk.textDelta)).text = concatTexts texts := by
  rw [runSlackChunks_textDeltas]
  rfl

/-- C1 counterexample: the chunk sequence `[text-delta " "]` ends with
whitespace-only accumulated text, yet the final written text is the
whitespace string `" "` itself, not a fallback; and on empty
accumulated text the fallback actually written is
`"Sorry, I couldn't generate a response."`, not
`"no response generated"`. -/
theorem final_text_fallback_counterexample :
    (runSlackChunks initStreamState [Chunk.textDelta " "]).text = " "
    ∧ " ".data.all Char.isWhitespace = true
    ∧ finalSlackText (runSlackChunks initStreamState [Chunk.textDelta " "]).text = " "
    ∧ " " ≠ "no response generated"
    ∧ finalSlackText (runSlackChunks initStreamState []).text
        = "Sorry, I couldn\x27t generate a response."
    ∧ "Sorry, I couldn\x27t generate a response." ≠ "no response generated" := by
  refine ⟨?_, ?_, ?_, ?_, ?_, ?_⟩ <;> decide

/-- C1 (amended): for every chunk sequence, if the accumulated text at
stream end is the empty string the final written text is the fixed
fallback string "Sorry, I couldn't generate a response.", and the
final written text is never the empty string (a whitespace-only
non-empty accumulation, however, is written unchanged). -/
theorem final_text_fallback (chunks : List Chunk) :
    ((runSlackChunks initStreamState chunks).text = "" →
      finalSlackText (runSlackChunks initStreamState chunks).text
        = "Sorry, I couldn\x27t generate a response.")
    ∧ finalSlackText (runSlackChunks initStreamState chunks).text ≠ "" := by
  constructor
  · intro h
    rw [finalSlackText, if_pos h]
  · by_cases h : (runSlackChunks initStreamState chunks).text = ""
    · rw [finalSlackText, if_pos h]
      decide
    · rw [finalSlackText, if_neg h]
      exact h

/-- C1 witness: on the empty chunk sequence the accumulated text is
empty and the fallback is written. -/
theorem final_text_fallback_witness :
    (runSlackChunks initStreamState []).text = ""
    ∧ finalSlackText (runSlackChunks initStreamState []).text
        = "Sorry, I couldn\x27t generate a response."
    ∧ finalSlackText (runSlackChunks initStreamState []).text ≠ "" :=
  ⟨rfl, (final_text_fallback []).1 rfl, (final_text_fallback []).2⟩

theorem processChunkSlack_text_pres (s : StreamState) (c : Chunk) :
    ∃ t, (processChunkSlack s c).text = s.text ++ t := by
  cases c with
  | textDelta t => exact ⟨t, processChunkSlack_textDelta_text s t⟩
  | toolCall n => exact ⟨"", by simp [processChunkSlack, append_empty_str]⟩
  | toolOutput output =>
      refine ⟨"", ?_⟩
      rw [append_empty_str]
      cases output with
      | none => rfl
      | some o =>
          simp only [processChunkSlack]
          split <;> split <;> first | rfl | (split <;> rfl)
  | workflowExecutionStart name wid =>
      exact ⟨"", by simp [processChunkSlack, append_empty_str]⟩
  | agentEvent suffix inner => exact ⟨"", by simp [processChunkSlack, append_empty_str]⟩
  | workflowEvent suffix inner => exact ⟨"", by simp [processChunkSlack, append_empty_str]⟩
  | other kind => exact ⟨"", by simp [processChunkSlack, append_empty_str]⟩

theorem handleNestedChunkEvents_text_pres (s : StreamState) (c : Chunk) :
    ∃ t, (handleNestedChunkEvents c s).text = s.text ++ t := by
  cases c with
  | agentEvent suffix inner =>
      cases inner with
      | none => exact ⟨"", by simp [handleNestedChunkEvents, append_empty_str]⟩
      | some ev =>
          by_cases hty : ev.type = "text-delta"
          · cases hp : ev.payload with
            | none => exact ⟨"", by simp [handleNestedChunkEvents, hty, hp, append_empty_str]⟩
            | some p =>
                cases ht : p.text with
                | none =>
                    exact ⟨"", by simp [handleNestedChunkEvents, hty, hp, ht, append_empty_str]⟩
                | some t =>
                    by_cases hne : t = ""
                    · exact ⟨"", by
                        simp [handleNestedChunkEvents, hty, hp, ht, hne, append_empty_str]⟩
                    · exact ⟨t, by simp [handleNestedChunkEvents, hty, hp, ht, hne]⟩
          · exact ⟨"", by simp [handleNestedChunkEvents, hty, append_empty_str]⟩
  | workflowEvent suffix inner =>
      refine ⟨"", ?_⟩
      rw [append_empty_str]
      cases inner with
      | none => rfl
      | some ev =>
          simp only [handleNestedChunkEvents]
          split <;> rfl
  | textDelta t => exact ⟨"", by simp [handleNestedChunkEvents, append_empty_str]⟩
  | toolCall n => exact ⟨"", by simp [handleNestedChunkEvents, append_empty_str]⟩
  | toolOutput o => exact ⟨"", by simp [handleNestedChunkEvents, append_empty_str]⟩
  | workflowExecutionStart n w => exact ⟨"", by simp [handleNestedChunkEvents, append_empty_str]⟩
  | other kind => exact ⟨"", by simp [handleNestedChunkEvents, append_empty_str]⟩

/-- C9: accumulated text is append-only — for every chunk, the
accumulated text before processing (by the Slack stream consumer step
or by the nested-event unwrapper) is a prefix of the accumulated text
after processing. -/
theorem accumulated_text_append_only (s : StreamState) (c : Chunk) :
    (∃ t, (processChunkSlack s c).text = s.text ++ t)
    ∧ (∃ t, (handleNestedChunkEvents c s).text = s.text ++ t) :=
  ⟨processChunkSlack_text_pres s c, handleNestedChunkEvents_text_pres s c⟩

/-- The per-chunk state transition of the `for await` loop in
`streamToTerminal` (the terminal streaming module in
`src/mastra/agents/lucie-agents.ts`, lines 196-259), with the
`process.stdout.write` calls abstracted away: first
`state.chunkType = chunk.type`, then `handleNestedChunkEvents(chunk,
state)`, then the `switch` on `chunk.type` — a text-delta appends its
truthy text, a tool-call records the formatted tool name, a
tool-output adopts the embedded `output.type` and sets the step name
on a workflow-step-start, and a workflow-execution-start records the
workflow name and the "Starting" step placeholder. -/
def processChunkTerminal (state : StreamState) (chunk : Chunk) : StreamState :=
  let s0 := { state with chunkType := chunk.type }
  let s := handleNestedChunkEvents chunk s0
  match chunk with
  | .textDelta t => if t ≠ "" then { s with text := s.text ++ t } else s
  | .toolCall toolName => { s with toolName := some (formatName toolName) }
  | .toolOutput output =>
      match output with
      | some o =>
          let s1 :=
            match o.type with
            | some ty => if ty ≠ "" then { s with chunkType := ty } else s
            | none => s
          if o.type = some "workflow-step-start" then
            { s1 with
                stepName := some (formatName
                  (jsOrStr (o.payload.bind fun p => p.id)
                           (o.payload.bind fun p => p.stepId) "step")) }
          else s1
      | none => s
  | .workflowExecutionStart name workflowId =>
      { s with
          workflowName := some (formatName (jsOrStr name none workflowId)),
          stepName := some "Starting" }
  | _ => s

theorem handleNested_agent_textDelta_text (s : StreamState) (suffix t : String) :
    (handleNestedChunkEvents
        (Chunk.agentEvent suffix
          (some { type := "text-delta", payload := some { text := some t } })) s).text
      = s.text ++ t := by
  by_cases h : t = ""
  · subst h
    simp [handleNestedChunkEvents, append_empty_str]
  · simp [handleNestedChunkEvents, h]

/-- C3: a chunk of the agent-nesting family whose embedded inner event
is a text-delta carrying text `t` updates accumulated text exactly as
a top-level text-delta chunk with the same text `t`: the terminal
consumer step (which runs the unwrapper on every chunk), and the
unwrapper compared against the Slack consumer's top-level text-delta
branch, both append exactly `t`. -/
theorem nested_text_delta_equivalent_to_top_level (s : StreamState) (suffix t : String) :
    (processChunkTerminal s
        (Chunk.agentEvent suffix
          (some { type := "text-delta", payload := some { text := some t } }))).text
      = (processChunkTerminal s (Chunk.textDelta t)).text
    ∧ (handleNestedChunkEvents
        (Chunk.agentEvent suffix
          (some { type := "text-delta", payload := some { text := some t } })) s).text
      = (processChunkSlack s (Chunk.textDelta t)).text
    ∧ (processChunkTerminal s
        (Chunk.agentEvent suffix
          (some { type := "text-delta", payload := some { text := some t } }))).text
      = s.text ++ t := by
  have h1 : (processChunkTerminal s
      (Chunk.agentEvent suffix
        (some { type := "text-delta", payload := some { text := some t } }))).text
      = s.text ++ t := by
    simp only [processChunkTerminal]
    exact handleNested_agent_textDelta_text
      { s with
          chunkType := (Chunk.agentEvent suffix
            (some { type := "text-delta", payload := some { text := some t } })).type }
      suffix t
  have h2 : (processChunkTerminal s (Chunk.textDelta t)).text = s.text ++ t := by
    by_cases ht : t = ""
    · subst ht
      simp [processChunkTerminal, handleNestedChunkEvents, append_empty_str]
    · simp [processChunkTerminal, handleNestedChunkEvents, ht]
  refine ⟨?_, ?_, h1⟩
  · rw [h1, h2]
  · rw [handleNested_agent_textDelta_text, processChunkSlack_textDelta_text]

/-- C4 counterexample: a tool-output chunk carrying
`output.type = "workflow-step-start"` with no payload identifier sets
the step name to the title-cased `"Step"`, not the literal word
`"step"`; and a present-but-empty `output.payload.id` is skipped in
favour of `stepId`, which is additionally title-cased by `formatName`
(`"myStep"` becomes `"My Step"`, not the raw identifier). -/
theorem step_name_priority_counterexample :
    (processChunkSlack initStreamState
        (Chunk.toolOutput (some { type := some "workflow-step-start" }))).stepName
      = some "Step"
    ∧ some "Step" ≠ some "step"
    ∧ (processChunkSlack initStreamState
        (Chunk.toolOutput (some
          { type := some "workflow-step-start",
            payload := some { id := some "", stepId := some "myStep" } }))).stepName
      = some "My Step"
    ∧ ("My Step" : String) ≠ "myStep" := by
  refine ⟨?_, ?_, ?_, ?_⟩ <;> decide

/-- C4 (amended): for a tool-output chunk whose `output.type` is
"workflow-step-start", the consumer sets the step name to `formatName`
(title case) of: `output.payload.id` if present and non-empty, else
`output.payload.stepId` if present and non-empty, else the literal
"step" (so the displayed fallback is "Step"), in that priority
order. -/
theorem step_name_priority (s : StreamState) (idv stepIdv : Option String) :
    (∀ i, idv = some i → i ≠ "" →
      (processChunkSlack s (Chunk.toolOutput (some
        { type := some "workflow-step-start",
          payload := some { id := idv, stepId := stepIdv } }))).stepName
        = some (formatName i))
    ∧ ((idv = none ∨ idv = some "") → ∀ j, stepIdv = some j → j ≠ "" →
      (processChunkSlack s (Chunk.toolOutput (some
        { type := some "workflow-step-start",
          payload := some { id := idv, stepId := stepIdv } }))).stepName
        = some (formatName j))
    ∧ ((idv = none ∨ idv = some "") → (stepIdv = none ∨ stepIdv = some "") →
      (processChunkSlack s (Chunk.toolOutput (some
        { type := some "workflow-step-start",
          payload := some { id := idv, stepId := stepIdv } }))).stepName
        = some "Step")
    ∧ (processChunkSlack s (Chunk.toolOutput (some
        { type := some "workflow-step-start", payload := none }))).stepName
        = some "Step" := by
  refine ⟨?_, ?_, ?_, ?_⟩
  · intro i hi hne
    subst hi
    simp [processChunkSlack, jsOrStr, hne]
  · intro hid j hj hne
    subst hj
    rcases hid with h | h <;> subst h <;> simp [processChunkSlack, jsOrStr, hne]
  · intro hid hstep
    rcases hid with h | h <;> rcases hstep with h2 | h2 <;> subst h <;> subst h2 <;>
      simp [processChunkSlack, jsOrStr] <;> decide
  · simp [processChunkSlack, jsOrStr]
    decide

/-- C4 witness: concrete instantiations of each priority case. -/
theorem step_name_priority_witness :
    (processChunkSlack initStreamState (Chunk.toolOutput (some
      { type := some "workflow-step-start",
        payload := some { id := some "stepA", stepId := some "ignored" } }))).stepName
      = some (formatName "stepA")
    ∧ (processChunkSlack initStreamState (Chunk.toolOutput (some
      { type := some "workflow-step-start",
        payload := some { id := none, stepId := some "stepB" } }))).stepName
      = some (formatName "stepB")
    ∧ (processChunkSlack initStreamState (Chunk.toolOutput (some
      { type := some "workflow-step-start",
        payload := some { id := some "", stepId := none } }))).stepName
      = some "Step" :=
  ⟨(step_name_priority initStreamState (some "stepA") (some "ignored")).1 "stepA" rfl
      (by decide),
   (step_name_priority initStreamState none (some "stepB")).2.1 (Or.inl rfl) "stepB" rfl
      (by decide),
   (step_name_priority initStreamState (some "") none).2.2.1 (Or.inr rfl) (Or.inl rfl)⟩

/-- `SPINNER` from `src/mastra/slack/constants.ts`: the ten braille
spinner frames. -/
def SPINNER : List String := ["⠋", "⠙", "⠹", "⠸", "⠼", "⠴", "⠦", "⠧", "⠇", "⠏"]

/-- `TOOL_ICONS` from `src/mastra/slack/constants.ts`. -/
def TOOL_ICONS : List String := ["🔄", "⚙️", "🔧", "⚡"]

/-- `WORKFLOW_ICONS` from `src/mastra/slack/constants.ts`. -/
def WORKFLOW_ICONS : List String := ["📋", "⚡", "🔄", "✨"]

/-- JavaScript `String.prototype.includes`: the pattern occurs as a
contiguous substring. -/
def hasSubstring (pat : List Char) : List Char → Bool
  | [] => pat.isEmpty
  | c :: rest => pat.isPrefixOf (c :: rest) || hasSubstring pat rest

/-- `formatChunkType` from `src/mastra/slack/status.ts`: split the
chunk type on hyphens, capitalize each word, join with spaces. -/
def formatChunkType (type : String) : String :=
  String.intercalate " "
    ((splitSep (fun c => c = '-') type.data).map fun w => String.mk (capFirst w))

/-- `getStatusText` from `src/mastra/slack/status.ts`.  JavaScript
`type.startsWith(p)` is modelled as list prefix on the character
data, `type.includes('agent')` as list infix, and the truthiness of
the optional name fields by `strTruthy`. -/
def getStatusText (state : StreamState) (frame : Nat) : String :=
  let spinner := SPINNER.getD (frame % SPINNER.length) ""
  let toolIcon := TOOL_ICONS.getD (frame % TOOL_ICONS.length) ""
  let workflowIcon := WORKFLOW_ICONS.getD (frame % WORKFLOW_ICONS.length) ""
  let ty := state.chunkType
  let label := formatChunkType ty
  if "tool-".data.isPrefixOf ty.data && strTruthy state.toolName then
    toolIcon ++ " " ++ label ++ ": " ++ state.toolName.getD "" ++ "..."
  else if "workflow-".data.isPrefixOf ty.data && strTruthy state.stepName then
    workflowIcon ++ " " ++ label ++ ": " ++ state.stepName.getD "" ++ "..."
  else if hasSubstring "agent".data ty.data && strTruthy state.agentName then
    spinner ++ " " ++ label ++ ": " ++ state.agentName.getD "" ++ "..."
  else
    spinner ++ " " ++ label ++ "..."

/-- C7: the status renderer is a pure deterministic function of the
display state and frame — repeated calls agree — and varying only the
frame cycles with the period of the icon set in use: period 4 in the
tool branch, period 4 in the workflow branch, and period 10 (the
spinner length) whenever neither of those branches is selected. -/
theorem getStatusText_pure_and_periodic (s : StreamState) (f : Nat) :
    getStatusText s f = getStatusText s f
    ∧ (("tool-".data.isPrefixOf s.chunkType.data && strTruthy s.toolName) = true →
        getStatusText s (f + 4) = getStatusText s f)
    ∧ (("tool-".data.isPrefixOf s.chunkType.data && strTruthy s.toolName) = false →
       ("workflow-".data.isPrefixOf s.chunkType.data && strTruthy s.stepName) = true →
        getStatusText s (f + 4) = getStatusText s f)
    ∧ (("tool-".data.isPrefixOf s.chunkType.data && strTruthy s.toolName) = false →
       ("workflow-".data.isPrefixOf s.chunkType.data && strTruthy s.stepName) = false →
        getStatusText s (f + 10) = getStatusText s f) := by
  have hmod4 : ∀ len, len = 4 → (f + 4) % len = f % len := by
    intro len h
    subst h
    exact Nat.add_mod_right f 4
  have hmod10 : ∀ len, len = 10 → (f + 10) % len = f % len := by
    intro len h
    subst h
    exact Nat.add_mod_right f 10
  refine ⟨rfl, ?_, ?_, ?_⟩
  · intro h
    simp only [getStatusText, h, if_true, hmod4 TOOL_ICONS.length rfl]
  · intro h1 h2
    simp only [getStatusText, h1, h2, if_true, Bool.false_eq_true, if_false,
      hmod4 WORKFLOW_ICONS.length rfl]
  · intro h1 h2
    simp only [getStatusText, h1, h2, Bool.false_eq_true, if_false,
      hmod10 SPINNER.length rfl]

/-- C7 witness: concrete states exercising the tool, workflow and
default branches at frame 0. -/
theorem getStatusText_periodic_witness :
    (getStatusText { text := "", chunkType := "tool-call", toolName := some "Reverse Text" } 4
      = getStatusText { text := "", chunkType := "tool-call", toolName := some "Reverse Text" } 0)
    ∧ (getStatusText { text := "", chunkType := "workflow-step-start", stepName := some "Step" } 4
      = getStatusText { text := "", chunkType := "workflow-step-start", stepName := some "Step" } 0)
    ∧ (getStatusText initStreamState 10 = getStatusText initStreamState 0) :=
  ⟨(getStatusText_pure_and_periodic
      { text := "", chunkType := "tool-call", toolName := some "Reverse Text" } 0).2.1
      (by decide),
   (getStatusText_pure_and_periodic
      { text := "", chunkType := "workflow-step-start", stepName := some "Step" } 0).2.2.1
      (by decide) (by decide),
   (getStatusText_pure_and_periodic initStreamState 0).2.2.2 (by decide) (by decide)⟩

/-- Observable events of the final-write retry helper: an update
attempt (with its index and outcome) or an inter-attempt delay in
milliseconds. -/
inductive RetryEvent where
  | attemptMade (i : Nat) (success : Bool)
  | delay (ms : Nat)
deriving Repr, DecidableEq

/-- The `for` loop of `retrySlackUpdate`
(`src/mastra/slack/streaming.ts` lines 246-254), with the fuel
counting the remaining iterations: try the update; on success return;
on failure log and, when this was not the last attempt, sleep 500 ms.
The update operation is modelled by its outcome per attempt index. -/
def retryLoop (op : Nat → Bool) (maxAttempts : Nat) : Nat → Nat → List RetryEvent
  | _, 0 => []
  | attempt, remaining + 1 =>
      if op attempt then [.attemptMade attempt true]
      else
        .attemptMade attempt false ::
          ((if attempt < maxAttempts - 1 then [RetryEvent.delay 500] else [])
            ++ retryLoop op maxAttempts (attempt + 1) remaining)

/-- `retrySlackUpdate` from `src/mastra/slack/streaming.ts`: the event
trace of the retry loop, with the default `maxAttempts = 3`.  The
function always returns normally (every failure is caught inside the
loop), which the model reflects by being total. -/
def retrySlackUpdate (op : Nat → Bool) (maxAttempts : Nat := 3) : List RetryEvent :=
  retryLoop op maxAttempts 0 maxAttempts

/-- Number of update attempts in a retry trace. -/
def countAttempts (evs : List RetryEvent) : Nat :=
  evs.countP fun e =>
    match e with
    | .attemptMade _ _ => true
    | _ => false

/-- C5: the final-write retry helper performs at most 3 attempts;
an operation that fails exactly twice then succeeds yields exactly the
trace attempt-fail, 500 ms delay, attempt-fail, 500 ms delay,
attempt-success (3 attempts, normal return); a first- or
second-attempt success returns immediately with no further attempts;
and when all 3 attempts fail the helper still returns a normal trace
(no exception), with the 500 ms delay exactly between consecutive
failed attempts and no delay after the last one. -/
theorem retry_at_most_three_attempts (op : Nat → Bool) :
    countAttempts (retrySlackUpdate op) ≤ 3
    ∧ (op 0 = false → op 1 = false → op 2 = true →
        retrySlackUpdate op
          = [.attemptMade 0 false, .delay 500, .attemptMade 1 false, .delay 500,
             .attemptMade 2 true])
    ∧ (op 0 = true → retrySlackUpdate op = [.attemptMade 0 true])
    ∧ (op 0 = false → op 1 = true →
        retrySlackUpdate op = [.attemptMade 0 false, .delay 500, .attemptMade 1 true])
    ∧ (op 0 = false → op 1 = false → op 2 = false →
        retrySlackUpdate op
          = [.attemptMade 0 false, .delay 500, .attemptMade 1 false, .delay 500,
             .attemptMade 2 false]) := by
  refine ⟨?_, ?_, ?_, ?_, ?_⟩
  · cases h0 : op 0 <;> cases h1 : op 1 <;> cases h2 : op 2 <;>
      simp [retrySlackUpdate, retryLoop, countAttempts, h0, h1, h2]
  · intro h0 h1 h2
    simp [retrySlackUpdate, retryLoop, h0, h1, h2]
  · intro h0
    simp [retrySlackUpdate, retryLoop, h0]
  · intro h0 h1
    simp [retrySlackUpdate, retryLoop, h0, h1]
  · intro h0 h1 h2
    simp [retrySlackUpdate, retryLoop, h0, h1, h2]

/-- C5 witness: an operation failing on attempts 0 and 1 and
succeeding on attempt 2 produces exactly the 3-attempt trace. -/
theorem retry_at_most_three_attempts_witness :
    retrySlackUpdate (fun i => i == 2)
      = [.attemptMade 0 false, .delay 500, .attemptMade 1 false, .delay 500,
         .attemptMade 2 true]
    ∧ countAttempts (retrySlackUpdate (fun i => i == 2)) ≤ 3 :=
  ⟨(retry_at_most_three_attempts (fun i => i == 2)).2.1 rfl rfl rfl,
   (retry_at_most_three_attempts (fun i => i == 2)).1⟩

/-- The per-session mutable locals of `streamToSlack` that govern the
animation loop: the finished flag, the interval handle, the
placeholder message timestamp, and the frame counter. -/
structure SessionState where
  isFinished : Bool
  animationTimer : Option Unit
  messageTs : Option String
  frame : Nat
deriving Repr, DecidableEq

/-- `stopAnimation` from `src/mastra/slack/streaming.ts` lines 89-95:
set the finished flag, then clear the interval handle if one is
set. -/
def stopAnimation (sess : SessionState) : SessionState :=
  let s1 := { sess with isFinished := true }
  match s1.animationTimer with
  | some _ => { s1 with animationTimer := none }
  | none => s1

/-- `updateSlack` from `src/mastra/slack/streaming.ts` lines 97-108:
return early (no external update) when there is no truthy message
timestamp or the session is finished; otherwise the external surface
receives the given text, defaulting to the rendered status.  The
result is the text of the external update performed, if any. -/
def updateSlack (sess : SessionState) (disp : StreamState) (text : Option String) :
    Option String :=
  if !strTruthy sess.messageTs || sess.isFinished then none
  else some (text.getD (getStatusText disp sess.frame))

/-- The animation interval callback from `src/mastra/slack/streaming.ts`
lines 128-133: when not finished, advance the frame and render via
`updateSlack` (which re-checks the flag itself).  Returns the new
session state and the external update performed, if any. -/
def animationTick (sess : SessionState) (disp : StreamState) :
    SessionState × Option String :=
  if sess.isFinished then (sess, none)
  else
    let s1 := { sess with frame := sess.frame + 1 }
    (s1, updateSlack s1 disp none)

/-- C6: after `stopAnimation`, the finished flag is set, every render
call — including a tick that was already scheduled at the moment of
cancellation — re-checks the flag at render time and performs no
external update and no state change, and a second cancellation is a
no-op. -/
theorem no_render_after_stop (sess : SessionState) (disp : StreamState)
    (text : Option String) :
    (stopAnimation sess).isFinished = true
    ∧ updateSlack (stopAnimation sess) disp text = none
    ∧ (animationTick (stopAnimation sess) disp).2 = none
    ∧ (animationTick (stopAnimation sess) disp).1 = stopAnimation sess
    ∧ stopAnimation (stopAnimation sess) = stopAnimation sess
    ∧ (sess.isFinished = true → updateSlack sess disp text = none) := by
  have hfin : (stopAnimation sess).isFinished = true := by
    cases h : sess.animationTimer <;> simp [stopAnimation, h]
  have htimer : (stopAnimation sess).animationTimer = none := by
    cases h : sess.animationTimer <;> simp [stopAnimation, h]
  refine ⟨hfin, ?_, ?_, ?_, ?_, ?_⟩
  · simp [updateSlack, hfin]
  · simp [animationTick, hfin]
  · simp [animationTick, hfin]
  · simp [stopAnimation, htimer]
    cases h : sess.animationTimer <;> simp [stopAnimation, h]
  · intro h
    simp [updateSlack, h]

/-- C6 witness: a finished session with a live placeholder performs no
update, and cancelling twice equals cancelling once. -/
theorem no_render_after_stop_witness :
    updateSlack
        { isFinished := true, animationTimer := none, messageTs := some "1.23", frame := 7 }
        initStreamState none
      = none
    ∧ stopAnimation (stopAnimation
        { isFinished := false, animationTimer := some (), messageTs := some "1.23",
          frame := 7 })
      = stopAnimation
        { isFinished := false, animationTimer := some (), messageTs := some "1.23",
          frame := 7 } :=
  ⟨(no_render_after_stop
      { isFinished := true, animationTimer := none, messageTs := some "1.23", frame := 7 }
      initStreamState none).2.2.2.2.2 rfl,
   (no_render_after_stop
      { isFinished := false, animationTimer := some (), messageTs := some "1.23", frame := 7 }
      initStreamState none).2.2.2.2.1⟩

/-- The reporting actions the `catch` block of `streamToSlack` may
perform: overwrite the placeholder through the retry helper, or post
a fresh error message whose own failure is swallowed. -/
inductive ErrAction where
  | updatePlaceholder (text : String) (retryTrace : List RetryEvent)
  | postNew (text : String) (ok : Bool)
deriving Repr, DecidableEq

/-- The error text built by the `catch` block of `streamToSlack`. -/
def errorTextOf (err : String) : String := "❌ Error: " ++ err

/-- The `catch` block of `streamToSlack`
(`src/mastra/slack/streaming.ts` lines 204-220): stop animation
(modelled separately), report best-effort — to the placeholder via
the retry helper when a truthy message timestamp exists, otherwise by
posting a new message with any failure swallowed (`.catch(() => {})`)
— then re-raise the original error, returned here as the second
component. -/
def handleStreamFailure (err : String) (messageTs : Option String) (postOk : Bool)
    (op : Nat → Bool) : List ErrAction × String :=
  if strTruthy messageTs then
    ([.updatePlaceholder (errorTextOf err) (retrySlackUpdate op)], err)
  else
    ([.postNew (errorTextOf err) postOk], err)

/-- C8: for every failure during a streaming session, the consumer
re-raises the original failure after best-effort reporting: with a
placeholder the error text goes to it through the never-throwing
retry helper, without one a new post is attempted whose failure is
swallowed, and in every case — whatever the outcome of the report —
the re-raised error is exactly the original one. -/
theorem original_error_reraised (err : String) (messageTs : Option String)
    (postOk : Bool) (op : Nat → Bool) :
    (handleStreamFailure err messageTs postOk op).2 = err
    ∧ (strTruthy messageTs = true →
        (handleStreamFailure err messageTs postOk op).1
          = [.updatePlaceholder (errorTextOf err) (retrySlackUpdate op)])
    ∧ (strTruthy messageTs = false →
        (handleStreamFailure err messageTs postOk op).1
          = [.postNew (errorTextOf err) postOk]) := by
  refine ⟨?_, ?_, ?_⟩
  · by_cases h : strTruthy messageTs <;> simp [handleStreamFailure, h]
  · intro h
    simp [handleStreamFailure, h]
  · intro h
    simp [handleStreamFailure, h]

/-- C8 witness: a failure before any placeholder exists, with the
fresh error post itself failing, still re-raises the original
error. -/
theorem original_error_reraised_witness :
    (handleStreamFailure "boom" none false (fun _ => false)).2 = "boom"
    ∧ (handleStreamFailure "boom" none false (fun _ => false)).1
        = [.postNew (errorTextOf "boom") false] :=
  ⟨(original_error_reraised "boom" none false (fun _ => false)).1,
   (original_error_reraised "boom" none false (fun _ => false)).2.2 rfl⟩

/-- Whitespace characters skipped by JavaScript `parseInt`. -/
def isJsWhitespaceChar (c : Char) : Bool :=
  c = ' ' || c = '\t' || c = '\n' || c = '\r' || c = '\x0b' || c = '\x0c'

/-- Value of a decimal digit character, if it is one (code points
48-57 are the digits 0-9). -/
def decDigitVal (c : Char) : Option Nat :=
  let n := c.toNat
  if 48 ≤ n && n ≤ 57 then some (n - 48) else none

/-- Value of a hexadecimal digit character, if it is one (code points
97-102 are a-f, 65-70 are A-F). -/
def hexDigitVal (c : Char) : Option Nat :=
  let n := c.toNat
  if 48 ≤ n && n ≤ 57 then some (n - 48)
  else if 97 ≤ n && n ≤ 102 then some (n - 87)
  else if 65 ≤ n && n ≤ 70 then some (n - 55)
  else none

/-- Accumulate the value of the longest leading digit run. -/
def parseDigitsAcc (digitVal : Char → Option Nat) (base : Nat) :
    List Char → Nat → Nat
  | [], acc => acc
  | c :: cs, acc =>
      match digitVal c with
      | some v => parseDigitsAcc digitVal base cs (acc * base + v)
      | none => acc

/-- JavaScript `parseInt(s)` with no radix argument: skip leading
whitespace, take an optional sign, parse the longest leading digit
run (hexadecimal after a `0x`/`0X` prefix, else decimal); `none`
models the `NaN` result when no digit is found. -/
def parseIntJS (s : String) : Option Int :=
  let cs := s.data.dropWhile isJsWhitespaceChar
  let signAndRest : Int × List Char :=
    match cs with
    | '-' :: rest => (-1, rest)
    | '+' :: rest => (1, rest)
    | _ => (1, cs)
  let sign := signAndRest.1
  match signAndRest.2 with
  | '0' :: x :: rest =>
      if x = 'x' || x = 'X' then
        match rest with
        | c :: _ =>
            if (hexDigitVal c).isSome then
              some (sign * (parseDigitsAcc hexDigitVal 16 rest 0 : Nat))
            else none
        | [] => none
      else some (sign * (parseDigitsAcc decDigitVal 10 ('0' :: x :: rest) 0 : Nat))
  | c :: rest =>
      if (decDigitVal c).isSome then
        some (sign * (parseDigitsAcc decDigitVal 10 (c :: rest) 0 : Nat))
      else none
  | [] => none

/-- The signature base string of `verifySlackRequest`:
`v0:{timestamp}:{raw_body}`. -/
def signatureBase (timestamp body : String) : String :=
  "v0:" ++ timestamp ++ ":" ++ body

/-- The staleness rejection of `verifySlackRequest`:
`parseInt(timestamp) < fiveMinutesAgo`, which is false when
`parseInt` yields `NaN` (every comparison with `NaN` is false). -/
def staleCheck (timestamp : String) (now : Int) : Bool :=
  match parseIntJS timestamp with
  | some n => decide (n < now - 60 * 5)
  | none => false

/-- `verifySlackRequest` from `src/mastra/slack/verify.ts`.  The node
HMAC-SHA256 hex digest is an external collaborator, passed as a
function of the secret and the base string; the clock
`Math.floor(Date.now() / 1000)` is passed as `now`. -/
def verifySlackRequest (hmacSha256Hex : String → String → String)
    (signingSecret requestSignature timestamp body : String) (now : Int) : Bool :=
  if staleCheck timestamp now then false
  else
    let mySignature := "v0=" ++ hmacSha256Hex signingSecret (signatureBase timestamp body)
    if requestSignature.utf8ByteSize ≠ mySignature.utf8ByteSize then false
    else mySignature == requestSignature

/-- The length guard plus timing-safe comparison of
`verifySlackRequest`, in isolation: what the verifier computes when
the staleness check does not reject. -/
def signatureGate (hmacSha256Hex : String → String → String)
    (signingSecret requestSignature timestamp body : String) : Bool :=
  let mySignature := "v0=" ++ hmacSha256Hex signingSecret (signatureBase timestamp body)
  if requestSignature.utf8ByteSize ≠ mySignature.utf8ByteSize then false
  else mySignature == requestSignature

/-- C10: when the timestamp does not parse as an integer (`parseInt`
yields `NaN`), the staleness comparison is false and the verifier's
result is exactly the length guard plus signature comparison; the
freshness check rejects precisely the timestamps parsing strictly
below `now - 300`, and in particular never rejects a future-dated
timestamp. -/
theorem verify_nan_timestamp_not_rejected (hmac : String → String → String)
    (secret sig ts body : String) (now n : Int) :
    (parseIntJS ts = none →
      verifySlackRequest hmac secret sig ts body now = signatureGate hmac secret sig ts body)
    ∧ (parseIntJS ts = some n → now - 60 * 5 ≤ n →
      verifySlackRequest hmac secret sig ts body now = signatureGate hmac secret sig ts body)
    ∧ (parseIntJS ts = some n → n < now - 60 * 5 →
      verifySlackRequest hmac secret sig ts body now = false)
    ∧ (parseIntJS ts = some n → now ≤ n →
      verifySlackRequest hmac secret sig ts body now = signatureGate hmac secret sig ts body) := by
  have hsome : parseIntJS ts = some n → staleCheck ts now = decide (n < now - 60 * 5) := by
    intro h
    unfold staleCheck
    rw [h]
  have key : ∀ m, parseIntJS ts = some m → ¬(m < now - 60 * 5) →
      verifySlackRequest hmac secret sig ts body now
        = signatureGate hmac secret sig ts body := by
    intro m h hne
    have hstale : staleCheck ts now = false := by
      unfold staleCheck
      rw [h]
      exact decide_eq_false hne
    unfold verifySlackRequest signatureGate
    rw [hstale]
    simp only [Bool.false_eq_true, if_false]
  refine ⟨?_, ?_, ?_, ?_⟩
  · intro h
    have hstale : staleCheck ts now = false := by
      unfold staleCheck
      rw [h]
    unfold verifySlackRequest signatureGate
    rw [hstale]
    simp only [Bool.false_eq_true, if_false]
  · intro h hle
    exact key n h (by omega)
  · intro h hlt
    have hstale : staleCheck ts now = true := by
      rw [hsome h]
      exact decide_eq_true hlt
    unfold verifySlackRequest
    rw [hstale]
    simp only [if_true]
  · intro h hle
    exact key n h (by omega)

/-- C10 witness: a non-numeric timestamp, a fresh timestamp and a
stale timestamp, against a stub digest function, at clock 1000. -/
theorem verify_nan_timestamp_not_rejected_witness :
    verifySlackRequest (fun _ _ => "ab") "sec" "v0=ab" "notanumber" "body" 1000
      = signatureGate (fun _ _ => "ab") "sec" "v0=ab" "notanumber" "body"
    ∧ verifySlackRequest (fun _ _ => "ab") "sec" "v0=ab" "999" "body" 1000
      = signatureGate (fun _ _ => "ab") "sec" "v0=ab" "999" "body"
    ∧ verifySlackRequest (fun _ _ => "ab") "sec" "v0=ab" "5" "body" 1000 = false :=
  ⟨(verify_nan_timestamp_not_rejected (fun _ _ => "ab") "sec" "v0=ab" "notanumber"
      "body" 1000 0).1 (by decide),
   (verify_nan_timestamp_not_rejected (fun _ _ => "ab") "sec" "v0=ab" "999"
      "body" 1000 999).2.1 (by decide) (by decide),
   (verify_nan_timestamp_not_rejected (fun _ _ => "ab") "sec" "v0=ab" "5"
      "body" 1000 5).2.2.1 (by decide) (by decide)⟩

end Lucie
